import Mathlib

/-
Shallow embedding of the Arduino UNO R4 Minima register-level demonstration
sketch (file M4_Minima_Test_Code_Fast-PWM_SPI_IRQ_ADC_DAC_SCI_1a.ino).

Machine integers are modelled as Nat with explicit reduction modulo the
register width at each volatile read (M8 / M16 / M32).  Each volatile read of
a hardware-updated register is supplied by an oracle (HwInput), since the
hardware may change a status register between two consecutive reads.  The
interrupt handler is modelled as a function from the program globals and the
oracle to the new globals together with the ordered trace of register
accesses it performs.
-/

def M8 : Nat := 2 ^ 8
def M16 : Nat := 2 ^ 16
def M32 : Nat := 2 ^ 32

-- Bit-position and constant defines, transcribed from the sketch.
def SPSR_SPTEF : Nat := 5
def SPSR_SPRF : Nat := 7
def SPCR_SPEIE : Nat := 4
def SPCR_SPTIE : Nat := 5
def SPCR_SPRIE : Nat := 7
def SPCMD0_SPB_0_3 : Nat := 8
def SPDCR_SPLW : Nat := 5
def MSTPB18 : Nat := 18
def MSTPB19 : Nat := 19
def MSTPD5 : Nat := 5
def MSTPD6 : Nat := 6
def MSTPD16 : Nat := 16
def IRQ_SPI0_SPRI : Nat := 0xAD
def IRQ_SPI0_SPTI : Nat := 0xAE
def IRQ_SPI0_SPEI : Nat := 0xB0
def IRQ_SPI1_SPRI : Nat := 0xB2
def IRQ_SPI1_SPTI : Nat := 0xB3
def IRQ_SPI1_SPEI : Nat := 0xB5
def SPI_MASTER : Nat := 1
def SPI_SLAVE : Nat := 0
def SPI_IRQEN : Nat := 1
def SPI_POLL : Nat := 0
def SPI_BR_8M0Hz : Nat := 0x02
def SPI_BITS_32 : Nat := 0b0010
def LOOP_COUNT_VAL : Nat := 24000

/-- Memory-mapped registers touched by the interrupt handlers. -/
inductive Reg where
  | PFS_P107PFS_BY
  | PFS_P106PFS_BY
  | ADC140_ADDR00
  | ADC140_ADDR01
  | ADC140_ADCSR
  | SPI0_SPSR
  | SPI0_SPDR
  | SPI1_SPSR
  | SPI1_SPDR
  | ICU_IELSR07
  | DAC12_DADR0
  | GPT321_GTCCRC
  | GPT321_GTCCRD
  | GPT167_GTCCRC
  | GPT167_GTCCRD
deriving DecidableEq

/-- The four functional phases the specification ascribes to the handler. -/
inductive Phase where
  | adc
  | spi
  | dac
  | pwm
deriving DecidableEq

/-- One register access performed by a handler. -/
inductive Event where
  | read (r : Reg) (v : Nat)
  | write (r : Reg) (v : Nat)
deriving DecidableEq

def Event.reg : Event → Reg
  | .read r _ => r
  | .write r _ => r

/-- Phase classification of a register; the P106/P107 pin-flag debug writes
belong to no phase. -/
def phaseOf : Reg → Option Phase
  | .ADC140_ADDR00 => some .adc
  | .ADC140_ADDR01 => some .adc
  | .ADC140_ADCSR => some .adc
  | .SPI0_SPSR => some .spi
  | .SPI0_SPDR => some .spi
  | .SPI1_SPSR => some .spi
  | .SPI1_SPDR => some .spi
  | .ICU_IELSR07 => some .spi
  | .DAC12_DADR0 => some .dac
  | .GPT321_GTCCRC => some .pwm
  | .GPT321_GTCCRD => some .pwm
  | .GPT167_GTCCRC => some .pwm
  | .GPT167_GTCCRD => some .pwm
  | .PFS_P107PFS_BY => none
  | .PFS_P106PFS_BY => none

/-- Phase projection of a trace. -/
def phases (tr : List Event) : List Phase :=
  tr.filterMap fun e => phaseOf e.reg

/-- Values written to a given register, in order. -/
def regWrites (r : Reg) (tr : List Event) : List Nat :=
  tr.filterMap fun e =>
    match e with
    | .write r2 v => if r2 = r then some v else none
    | .read _ _ => none

/-- Registers allowed inside the SPI section of the handler: SPI-phase
registers or the phaseless pin-flag registers. -/
def spiOrPin (r : Reg) : Bool :=
  match phaseOf r with
  | some .spi => true
  | none => true
  | _ => false

def spiSeg (e : Event) : Bool := spiOrPin e.reg

/-- Oracle for the volatile hardware reads performed during one invocation of
timer7interrupt.  Each field corresponds to one textual read site; the poll
loop reads SPI1_SPSR once per iteration, hence a function of the iteration
index. -/
structure HwInput where
  addr00 : Nat
  addr01 : Nat
  adcsr : Nat
  spi0_spsr_clr : Nat
  spi0_spsr_set : Nat
  spi0_spsr_rx : Nat
  spi0_spdr : Nat
  spi0_spsr_tx : Nat
  spi0_spsr_err : Nat
  spi0_spsr_modf : Nat
  spi1_spsr_clr : Nat
  spi1_spsr_set : Nat
  ielsr07 : Nat
  spi1_spdr_drain : Nat
  spi1_spsr_poll : Nat → Nat
  spi1_spdr : Nat

/-- The program globals mutated by timer7interrupt, including the
function-static locals of the handler (localValA1, localValA2, localCount,
test), which persist across invocations. -/
structure Globals where
  adc_val_A1 : Nat
  adc_val_A2 : Nat
  loop_counter : Nat
  loopFlag : Bool
  sineFlag : Bool
  phaccu0 : Nat
  tword_m0 : Nat
  icount0 : Nat
  directionFlag : Bool
  spi0_received_val : Nat
  spi1_received_val : Nat
  localValA1 : Nat
  localValA2 : Nat
  localCount : Nat
  test : Nat

/-- ADC section of timer7interrupt: read ADDR00 and ADDR01, then set bit 15
of ADCSR to start the next conversion.  Returns the new (adc_val_A1,
adc_val_A2) and the trace. -/
def adcSection (inp : HwInput) : (Nat × Nat) × List Event :=
  let a1 := inp.addr00 % M16
  let a2 := inp.addr01 % M16
  let csr := inp.adcsr % M16
  ((a1, a2),
   [.read .ADC140_ADDR00 a1, .read .ADC140_ADDR01 a2,
    .read .ADC140_ADCSR csr, .write .ADC140_ADCSR ((csr ||| (0x01 <<< 15)) % M16)])

/-- SPI0 (slave) section: clear error flags, set SPTEF, then the three
status-flag tests of the sketch.  Returns the new spi0_received_val and the
trace.  The SPI_DATA_WIDE build is modelled (32-bit SPDR accesses). -/
def spi0Section (inp : HwInput) (prev : Nat) (a1 : Nat) : Nat × List Event :=
  let sClr := inp.spi0_spsr_clr % M8
  let sSet := inp.spi0_spsr_set % M8
  let sRx := inp.spi0_spsr_rx % M8
  let sTx := inp.spi0_spsr_tx % M8
  let sErr := inp.spi0_spsr_err % M8
  let sModf := inp.spi0_spsr_modf % M8
  let rx := if (sRx &&& 0x80) = 0x80 then inp.spi0_spdr % M32 else prev
  let trRx :=
    if (sRx &&& 0x80) = 0x80 then
      [Event.read .SPI0_SPSR sRx, Event.read .SPI0_SPDR (inp.spi0_spdr % M32)]
    else
      [Event.read .SPI0_SPSR sRx, Event.write .PFS_P106PFS_BY 0x05,
       Event.write .PFS_P106PFS_BY 0x04]
  let trTx :=
    if (sTx &&& 0x20) = 0x20 then
      [Event.read .SPI0_SPSR sTx, Event.write .SPI0_SPDR a1]
    else
      [Event.read .SPI0_SPSR sTx, Event.write .PFS_P106PFS_BY 0x05,
       Event.write .PFS_P106PFS_BY 0x04]
  let trErr :=
    if (sErr &&& 0x04) = 0x04 then
      [Event.read .SPI0_SPSR sErr, Event.write .PFS_P106PFS_BY 0x05,
       Event.read .SPI0_SPSR sModf, Event.write .SPI0_SPSR (sModf &&& 0xFB),
       Event.write .PFS_P106PFS_BY 0x04]
    else
      [Event.read .SPI0_SPSR sErr]
  (rx,
   [Event.read .SPI0_SPSR sClr, Event.write .SPI0_SPSR (sClr &&& 0xE2),
    Event.read .SPI0_SPSR sSet, Event.write .SPI0_SPSR (sSet ||| (0x1 <<< SPSR_SPTEF))]
   ++ trRx ++ trTx ++ trErr)

/-- The bounded receive-poll loop of the SPI1 master transfer:
for(test = 0; test < 16; test++) with a break when SPRF reads 1.
Returns ((new spi1_received_val, final value of test), trace). -/
def pollLoop (inp : HwInput) (prev : Nat) (i fuel : Nat) : (Nat × Nat) × List Event :=
  match fuel with
  | 0 => ((prev, i), [])
  | fuel + 1 =>
    let s := inp.spi1_spsr_poll i % M8
    if (s &&& (0x01 <<< SPSR_SPRF)) = (0x01 <<< SPSR_SPRF) then
      ((inp.spi1_spdr % M32, i),
       [.read .SPI1_SPSR s, .write .PFS_P107PFS_BY 0x05,
        .read .SPI1_SPDR (inp.spi1_spdr % M32), .write .PFS_P107PFS_BY 0x04])
    else
      let r := pollLoop inp prev (i + 1) fuel
      (r.1, .read .SPI1_SPSR s :: r.2)

/-- SPI1 (master) section: clear error flags, set SPTEF, clear the IELSR07 IR
flag, drain SPDR, write localCount, then poll for the received word.
Returns ((new spi1_received_val, new localCount, final test), trace). -/
def spi1Section (inp : HwInput) (prev : Nat) (localCount : Nat) :
    (Nat × Nat × Nat) × List Event :=
  let sClr := inp.spi1_spsr_clr % M8
  let sSet := inp.spi1_spsr_set % M8
  let ie := inp.ielsr07 % M32
  let drain := inp.spi1_spdr_drain % M32
  let r := pollLoop inp prev 0 16
  ((r.1.1, (localCount + 1) % M16, r.1.2),
   [Event.read .SPI1_SPSR sClr, Event.write .SPI1_SPSR (sClr &&& 0xE2),
    Event.read .SPI1_SPSR sSet, Event.write .SPI1_SPSR (sSet ||| (0x1 <<< SPSR_SPTEF)),
    Event.read .ICU_IELSR07 ie, Event.write .ICU_IELSR07 (ie &&& 0xFFFEFFFF),
    Event.read .SPI1_SPDR drain,
    Event.write .SPI1_SPDR localCount]
   ++ r.2)

/-- DAC section: in sine (DDS) mode advance the 32-bit phase accumulator and
write its top 12 bits; otherwise write adc_val_A1 shifted right by 2.
Returns the new (phaccu0, icount0) and the trace. -/
def dacSection (sineFlag : Bool) (phaccu0 tword_m0 a1 icount0 : Nat) :
    (Nat × Nat) × List Event :=
  if sineFlag then
    let ph := (phaccu0 + tword_m0) % M32
    let ic := (ph >>> 20) % M16
    ((ph, ic), [Event.write .DAC12_DADR0 ic])
  else
    ((phaccu0, icount0), [Event.write .DAC12_DADR0 (a1 >>> 2)])

/-- GPT PWM section: clamp the two duty values away from 0x000 and 0x3FF,
write the GPT321 compare registers, then the GPT167 direction pair.
Returns ((localValA1, localValA2, directionFlag), trace). -/
def pwmSection (a1 a2 icount0 : Nat) (directionFlag : Bool) :
    (Nat × Nat × Bool) × List Event :=
  let lv1raw := a1 >>> 4
  let lv1 := if lv1raw = 0 then 1 else if lv1raw ≥ 0x3FF then 0x3FE else lv1raw
  let lv2raw := a2 >>> 4
  let lv2 := if lv2raw = 0 then 1 else if lv2raw ≥ 0x3FF then 0x3FE else lv2raw
  ((lv1, lv2, if directionFlag then false else true),
   [Event.write .GPT321_GTCCRC (icount0 >>> 2), Event.write .GPT321_GTCCRD lv1]
   ++ (if directionFlag then
        [Event.write .GPT167_GTCCRC 0x000, Event.write .GPT167_GTCCRD 0x7FD]
      else
        [Event.write .GPT167_GTCCRC 0x7FD, Event.write .GPT167_GTCCRD 0x000]))

/-- One invocation of the GPT7-overflow interrupt handler timer7interrupt,
composed of the four sections in the order of the source text, with the
P106/P107 pin-flag writes interleaved exactly as in the sketch. -/
def timer7interrupt (g : Globals) (inp : HwInput) : Globals × List Event :=
  let A := adcSection inp
  let a1 := A.1.1
  let a2 := A.1.2
  let S0 := spi0Section inp g.spi0_received_val a1
  let S1 := spi1Section inp g.spi1_received_val g.localCount
  let D := dacSection g.sineFlag g.phaccu0 g.tword_m0 a1 g.icount0
  let P := pwmSection a1 a2 D.1.2 g.directionFlag
  let lcInc := (g.loop_counter + 1) % M16
  ({ g with
      adc_val_A1 := a1
      adc_val_A2 := a2
      spi0_received_val := S0.1
      spi1_received_val := S1.1.1
      localCount := S1.1.2.1
      test := S1.1.2.2
      phaccu0 := D.1.1
      icount0 := D.1.2
      localValA1 := P.1.1
      localValA2 := P.1.2.1
      directionFlag := P.1.2.2
      loop_counter := if lcInc ≥ LOOP_COUNT_VAL then 0 else lcInc
      loopFlag := if lcInc ≥ LOOP_COUNT_VAL then true else g.loopFlag },
   [Event.write .PFS_P107PFS_BY 0x05]
   ++ A.2
   ++ [Event.write .PFS_P107PFS_BY 0x04]
   ++ [Event.write .PFS_P106PFS_BY 0x05]
   ++ S0.2
   ++ S1.2
   ++ [Event.write .PFS_P106PFS_BY 0x04]
   ++ [Event.write .PFS_P107PFS_BY 0x04]
   ++ D.2
   ++ P.2
   ++ [Event.write .PFS_P107PFS_BY 0x05]
   ++ [Event.write .PFS_P107PFS_BY 0x04])

/-- The placeholder ADC-scan-complete handler: two P107 pin-flag writes. -/
def adcCompleteInterrupt (g : Globals) : Globals × List Event :=
  (g, [.write .PFS_P107PFS_BY 0x05, .write .PFS_P107PFS_BY 0x04])

/-- The placeholder SPI error handler: two P107 pin-flag writes. -/
def spiErrorInterrupt (g : Globals) : Globals × List Event :=
  (g, [.write .PFS_P107PFS_BY 0x05, .write .PFS_P107PFS_BY 0x04])

/-- The placeholder SPI receive handler: four P107 pin-flag writes (double
tap, to differentiate from the transmit handler on a scope). -/
def spiReceiveInterrupt (g : Globals) : Globals × List Event :=
  (g, [.write .PFS_P107PFS_BY 0x05, .write .PFS_P107PFS_BY 0x04,
       .write .PFS_P107PFS_BY 0x05, .write .PFS_P107PFS_BY 0x04])

/-- The placeholder SPI transmit handler: two P107 pin-flag writes. -/
def spiTransmitInterrupt (g : Globals) : Globals × List Event :=
  (g, [.write .PFS_P107PFS_BY 0x05, .write .PFS_P107PFS_BY 0x04])

/-- Whether the SPRF flag is seen within the 16 receive-poll iterations. -/
def spi1RxReady (inp : HwInput) : Bool :=
  (List.range 16).any fun k =>
    (inp.spi1_spsr_poll k % M8) &&& (0x01 <<< SPSR_SPRF) == (0x01 <<< SPSR_SPRF)

/-- Register bank of one SPI controller, together with the pin-function,
interrupt-link and module-stop registers the setup routine touches.  The
pin-function fields are named by role (the physical ports differ between
SPI0: P103/P102/P101/P100 and SPI1: P112/P111/P109/P110). -/
structure SpiRegs where
  mstpcrb : Nat
  spcr : Nat
  sslp : Nat
  spbr : Nat
  sppcr : Nat
  spcr2 : Nat
  spcmd0 : Nat
  spckd : Nat
  sslnd : Nat
  spnd : Nat
  spdcr : Nat
  spdr : Nat
  spdr_ha : Nat
  pfs_ssl : Nat
  pfs_sck : Nat
  pfs_mosi : Nat
  pfs_miso : Nat
  ielsr06 : Nat
  ielsr07 : Nat
  ielsr08 : Nat
deriving DecidableEq

/-- setup_spi0(MSmode, bitRate, numBits, IRQmode): configure the SPI0 (slave
in this sketch) controller and return the final register state together with
the value of the final read of SPI0_SPCR, which the C function returns. -/
def setup_spi0 (MSmode bitRate numBits IRQmode : Nat) (r0 : SpiRegs) : SpiRegs × Nat :=
  let r := { r0 with
    mstpcrb := (r0.mstpcrb % M32) &&& (0xFFFFFFFF - (0x01 <<< MSTPB19))
    spcr := 0x00
    sslp := 0x00 }
  let r := if MSmode ≠ 0 then
      { r with spbr := bitRate % M8, sppcr := 0x30, spcr2 := 0x10, spcmd0 := 0xE001 }
    else
      { r with spbr := 0x00, spcmd0 := 0x0001, spckd := 0x00, sslnd := 0x00,
               spnd := 0x00, spcr2 := 0x00 }
  let r := if numBits ≥ 4 then
      { r with spdcr := 0x00, spdr_ha := 0xAAAA }
    else
      { r with spdcr := (r.spdcr % M8) ||| (0x01 <<< SPDCR_SPLW), spdr := 0x55555555 }
  let r := { r with spcmd0 := (r.spcmd0 % M16) ||| ((numBits % M8) <<< SPCMD0_SPB_0_3) }
  let r := { r with pfs_ssl := 0b00110 <<< 24 }
  let r := { r with pfs_ssl := (r.pfs_ssl % M32) ||| (0x1 <<< 16) }
  let r := { r with pfs_sck := 0b00110 <<< 24 }
  let r := { r with pfs_sck := (r.pfs_sck % M32) ||| (0x1 <<< 16) }
  let r := { r with pfs_mosi := 0b00110 <<< 24 }
  let r := { r with pfs_mosi := (r.pfs_mosi % M32) ||| (0x1 <<< 16) }
  let r := { r with pfs_miso := 0b00110 <<< 24 }
  let r := { r with pfs_miso := (r.pfs_miso % M32) ||| (0x1 <<< 16) }
  let r := { r with pfs_miso := (r.pfs_miso % M32) ||| (0x1 <<< 4) }
  let r := if IRQmode ≠ 0 then
      let r := { r with ielsr06 := IRQ_SPI0_SPEI, ielsr07 := IRQ_SPI0_SPRI,
                        ielsr08 := IRQ_SPI0_SPTI }
      let r := { r with spcr := (r.spcr % M8) ||| (0x1 <<< SPCR_SPTIE) }
      let r := { r with spcr := (r.spcr % M8) ||| (0x1 <<< SPCR_SPRIE) }
      { r with spcr := (r.spcr % M8) ||| (0x1 <<< SPCR_SPEIE) }
    else r
  let r := if MSmode ≠ 0 then
      { r with spcr := (r.spcr % M8) ||| 0x48 }
    else
      { r with spcr := (r.spcr % M8) ||| 0x40 }
  (r, r.spcr)

/-- setup_spi1(MSmode, bitRate, numBits, IRQmode): configure the SPI1 (master
in this sketch) controller; in slave mode only SPCMD0 is preset.  Returns the
final register state and the value of the final read of SPI1_SPCR. -/
def setup_spi1 (MSmode bitRate numBits IRQmode : Nat) (r0 : SpiRegs) : SpiRegs × Nat :=
  let r := { r0 with
    mstpcrb := (r0.mstpcrb % M32) &&& (0xFFFFFFFF - (0x01 <<< MSTPB18))
    spcr := 0x00
    sslp := 0x00 }
  let r := if MSmode ≠ 0 then
      { r with spbr := bitRate % M8, sppcr := 0x30, spcr2 := 0x10, spcmd0 := 0xE001 }
    else
      { r with spcmd0 := 0x0001 }
  let r := if numBits ≥ 4 then
      { r with spdcr := 0x00, spdr_ha := 0xAAAA }
    else
      { r with spdcr := (r.spdcr % M8) ||| (0x01 <<< SPDCR_SPLW), spdr := 0x55555555 }
  let r := { r with spcmd0 := (r.spcmd0 % M16) ||| ((numBits % M8) <<< SPCMD0_SPB_0_3) }
  let r := { r with pfs_ssl := 0b00110 <<< 24 }
  let r := { r with pfs_ssl := (r.pfs_ssl % M32) ||| (0x1 <<< 16) }
  let r := { r with pfs_sck := 0b00110 <<< 24 }
  let r := { r with pfs_sck := (r.pfs_sck % M32) ||| (0x1 <<< 16) }
  let r := { r with pfs_miso := 0b00110 <<< 24 }
  let r := { r with pfs_miso := (r.pfs_miso % M32) ||| (0x1 <<< 16) }
  let r := { r with pfs_mosi := 0b00110 <<< 24 }
  let r := { r with pfs_mosi := (r.pfs_mosi % M32) ||| (0x1 <<< 16) }
  let r := if IRQmode ≠ 0 then
      let r := { r with ielsr06 := IRQ_SPI1_SPEI, ielsr07 := IRQ_SPI1_SPRI,
                        ielsr08 := IRQ_SPI1_SPTI }
      let r := { r with spcr := (r.spcr % M8) ||| (0x1 <<< SPCR_SPTIE) }
      let r := { r with spcr := (r.spcr % M8) ||| (0x1 <<< SPCR_SPRIE) }
      { r with spcr := (r.spcr % M8) ||| (0x1 <<< SPCR_SPEIE) }
    else r
  let r := if MSmode ≠ 0 then
      { r with spcr := (r.spcr % M8) ||| 0x48 }
    else
      { r with spcr := (r.spcr % M8) ||| 0x40 }
  (r, r.spcr)

/-- The two SPI setup calls made by setup(): SPI1 as master with interrupts
enabled, SPI0 as slave polled, both at 8 MHz bit rate in 32-bit mode. -/
def setup_spi_calls (r1 r0 : SpiRegs) : (SpiRegs × Nat) × (SpiRegs × Nat) :=
  (setup_spi1 SPI_MASTER SPI_BR_8M0Hz SPI_BITS_32 SPI_IRQEN r1,
   setup_spi0 SPI_SLAVE SPI_BR_8M0Hz SPI_BITS_32 SPI_POLL r0)

/-- Register bank touched by setup_adc. -/
structure AdcRegs where
  mstpcrd : Nat
  adhvrefcnt : Nat
  adcer : Nat
  adcsr : Nat
  adansa0 : Nat
  adadc : Nat
  adads0 : Nat
deriving DecidableEq

/-- setup_adc(): enable the ADC140 module, select the external reference,
14-bit mode with the auto-clear bit cleared, group-B scan-end interrupt
enable, channels AN00/AN01, and 4-times averaging on those channels. -/
def setup_adc (r0 : AdcRegs) : AdcRegs :=
  let r := { r0 with mstpcrd := (r0.mstpcrd % M32) &&& (0xFFFFFFFF - (0x01 <<< MSTPD16)) }
  let r := { r with adhvrefcnt := 0x01 }
  let r := { r with adcer := 0x06 }
  let r := { r with adcsr := (r.adcsr % M16) ||| (0x01 <<< 6) }
  let r := { r with adansa0 := (r.adansa0 % M16) ||| (0x01 <<< 1) }
  let r := { r with adansa0 := (r.adansa0 % M16) ||| (0x01 <<< 0) }
  let r := { r with adadc := 0x83 }
  let r := { r with adads0 := (r.adads0 % M16) ||| (0x01 <<< 1) }
  let r := { r with adads0 := (r.adads0 % M16) ||| (0x01 <<< 0) }
  r

/-- Per-channel GPT registers written by setup_timers (GTSTP, GTSTR and GTCLR
are physically shared between all channels; they are recorded under the
channel whose alias the source addresses). -/
inductive GReg where
  | GTSSR | GTPSR | GTCSR | GTUDDTYC | GTCNT
  | GTCCRA | GTCCRB | GTCCRC | GTCCRD
  | GTPR | GTPBR | GTBER | GTCR | GTIOR
  | GTSTP | GTSTR | GTCLR
deriving DecidableEq

/-- Kind of write statement: plain assignment, or-assignment, and-assignment. -/
inductive TOp where
  | assign (v : Nat)
  | orAssign (v : Nat)
  | andAssign (v : Nat)
deriving DecidableEq

/-- One register write performed by setup_timers. -/
inductive TEvent where
  | gpt (ch : Nat) (r : GReg) (op : TOp)
  | mstpD (op : TOp)
  | pfs (port : Nat) (op : TOp)
deriving DecidableEq

/-- setup_timers(): the ordered sequence of register writes of the function,
transcribed statement by statement from the source (commented-out Timer 3
block omitted, as in the compiled sketch). -/
def setup_timers : List TEvent :=
  [ .mstpD (.andAssign (0xFFFFFFFF - (0x01 <<< MSTPD6))),
    .gpt 3 .GTSTP (.assign 0x10010010),
    .gpt 7 .GTSSR (.assign 0x80000000),
    .gpt 7 .GTPSR (.assign 0x80000000),
    .gpt 7 .GTCSR (.assign 0x80000000),
    .gpt 7 .GTUDDTYC (.assign 0x1),
    .gpt 7 .GTCNT (.assign 0x07F6),
    .gpt 7 .GTCCRA (.assign 0x0000),
    .gpt 7 .GTCCRB (.assign 0x0000),
    .gpt 7 .GTCCRC (.assign 0x0000),
    .gpt 7 .GTCCRD (.assign 0x0000),
    .gpt 7 .GTPR (.assign 0x7FD),
    .gpt 7 .GTPBR (.assign 0x7FD),
    .gpt 7 .GTBER (.assign 0x00150000),
    .gpt 7 .GTCR (.assign 0x0),
    .gpt 7 .GTIOR (.assign 0x00000000),
    .gpt 7 .GTIOR (.orAssign 0b01001),
    .gpt 7 .GTIOR (.orAssign (0b01001 <<< 16)),
    .gpt 7 .GTIOR (.orAssign 0x01000100),
    .pfs 304 (.assign (0b00011 <<< 24)),
    .pfs 304 (.orAssign (0x1 <<< 16)),
    .pfs 303 (.assign (0b00011 <<< 24)),
    .pfs 303 (.orAssign (0x1 <<< 16)),
    .mstpD (.andAssign (0xFFFFFFFF - (0x01 <<< MSTPD5))),
    .gpt 1 .GTSSR (.assign 0x80000000),
    .gpt 1 .GTPSR (.assign 0x80000000),
    .gpt 1 .GTCSR (.assign 0x80000000),
    .gpt 1 .GTUDDTYC (.assign 0x0),
    .gpt 1 .GTCNT (.assign 0x03FF),
    .gpt 1 .GTCCRA (.assign 0x0000),
    .gpt 1 .GTCCRB (.assign 0x0000),
    .gpt 1 .GTCCRC (.assign 0x0000),
    .gpt 1 .GTCCRD (.assign 0x0000),
    .gpt 1 .GTPR (.assign 0x3FF),
    .gpt 1 .GTPBR (.assign 0x3FF),
    .gpt 1 .GTBER (.assign 0x00150000),
    .gpt 1 .GTIOR (.assign 0x00000000),
    .gpt 1 .GTIOR (.orAssign 0b11011),
    .gpt 1 .GTIOR (.orAssign (0b11011 <<< 16)),
    .gpt 1 .GTIOR (.orAssign 0x01000100),
    .gpt 1 .GTCR (.assign 0x0),
    .gpt 1 .GTCR (.orAssign (0x4 <<< 16)),
    .pfs 104 (.assign (0b00011 <<< 24)),
    .pfs 104 (.orAssign (0x1 <<< 16)),
    .pfs 105 (.assign (0b00011 <<< 24)),
    .pfs 105 (.orAssign (0x1 <<< 16)),
    .gpt 4 .GTSSR (.assign 0x80000000),
    .gpt 4 .GTPSR (.assign 0x80000000),
    .gpt 4 .GTCSR (.assign 0x80000000),
    .gpt 4 .GTUDDTYC (.assign 0x1),
    .gpt 4 .GTCNT (.assign 0x000),
    .gpt 4 .GTCCRB (.assign 0x1FF),
    .gpt 4 .GTCCRD (.assign 0x1FF),
    .gpt 4 .GTPR (.assign 0x7FD),
    .gpt 4 .GTPBR (.assign 0x7FD),
    .gpt 4 .GTIOR (.assign 0x00090000),
    .gpt 4 .GTIOR (.orAssign 0x01000000),
    .gpt 4 .GTCR (.assign 0x0),
    .pfs 204 (.assign (0b00011 <<< 24)),
    .pfs 204 (.orAssign (0x1 <<< 16)),
    .gpt 4 .GTSTR (.assign 0x10010010),
    .gpt 7 .GTCR (.orAssign 0x1),
    .gpt 1 .GTCR (.orAssign 0x1),
    .gpt 4 .GTCR (.orAssign 0x1),
    .gpt 4 .GTCLR (.assign 0x10010010) ]

/-- Whether setup_timers writes the given register of the given channel. -/
def writesGpt (ch : Nat) (r : GReg) : Bool :=
  setup_timers.any fun e =>
    match e with
    | .gpt c r2 _ => c == ch && r2 == r
    | _ => false

/-- A channel counts as initialised when setup_timers writes its control,
counter, a compare, a period and the I/O register. -/
def gptChannelInitialised (ch : Nat) : Bool :=
  writesGpt ch .GTCR && writesGpt ch .GTCNT
  && (writesGpt ch .GTCCRA || writesGpt ch .GTCCRB
      || writesGpt ch .GTCCRC || writesGpt ch .GTCCRD)
  && (writesGpt ch .GTPR || writesGpt ch .GTPBR)
  && writesGpt ch .GTIOR

/-- The GPT channels, out of the eight on the chip, that setup_timers initialises. -/
def configuredGptChannels : List Nat :=
  (List.range 8).filter gptChannelInitialised

/-- A concrete sample of the program globals, used to instantiate theorems
with hypotheses on concrete inputs. -/
def gSample : Globals :=
  { adc_val_A1 := 0, adc_val_A2 := 0, loop_counter := 23999, loopFlag := false,
    sineFlag := true, phaccu0 := 0xFFF00000, tword_m0 := 0x200000, icount0 := 0,
    directionFlag := false, spi0_received_val := 17, spi1_received_val := 23,
    localValA1 := 0, localValA2 := 0, localCount := 5, test := 0 }

/-- A concrete sample of the hardware-read oracle. -/
def inpSample : HwInput :=
  { addr00 := 0x1234, addr01 := 0x2222, adcsr := 0,
    spi0_spsr_clr := 0, spi0_spsr_set := 0, spi0_spsr_rx := 0x80,
    spi0_spdr := 0xDEADBEEF, spi0_spsr_tx := 0x20, spi0_spsr_err := 0,
    spi0_spsr_modf := 0, spi1_spsr_clr := 0, spi1_spsr_set := 0,
    ielsr07 := 0, spi1_spdr_drain := 0,
    spi1_spsr_poll := fun _ => 0x80, spi1_spdr := 0x0BADF00D }

theorem regWrites_append (r : Reg) (a b : List Event) :
    regWrites r (a ++ b) = regWrites r a ++ regWrites r b := by
  simp [regWrites, List.filterMap_append]

theorem phases_append (a b : List Event) :
    phases (a ++ b) = phases a ++ phases b := by
  simp [phases, List.filterMap_append]

theorem regWrites_nil_of_spiSeg {l : List Event} (h : l.all spiSeg = true)
    {r : Reg} (hr : spiOrPin r = false) : regWrites r l = [] := by
  rw [regWrites, List.filterMap_eq_nil_iff]
  intro e he
  have hs : spiSeg e = true := List.all_eq_true.mp h e he
  cases e with
  | read r2 v => rfl
  | write r2 v =>
    simp only
    rw [if_neg]
    intro hEq
    rw [spiSeg, Event.reg, hEq, hr] at hs
    cases hs

theorem pollLoop_all_spiSeg (inp : HwInput) (prev : Nat) :
    ∀ fuel i, ((pollLoop inp prev i fuel).2).all spiSeg = true := by
  intro fuel
  induction fuel with
  | zero => intro i; rfl
  | succ n ih =>
    intro i
    simp only [pollLoop]
    split
    · rfl
    · simp only [List.all_cons, Bool.and_eq_true]
      exact ⟨rfl, ih (i + 1)⟩

theorem spi0Section_all_spiSeg (inp : HwInput) (prev a1 : Nat) :
    ((spi0Section inp prev a1).2).all spiSeg = true := by
  simp only [spi0Section]
  split_ifs <;> rfl

theorem spi1Section_all_spiSeg (inp : HwInput) (prev lc : Nat) :
    ((spi1Section inp prev lc).2).all spiSeg = true := by
  simp only [spi1Section, List.all_append, Bool.and_eq_true]
  exact ⟨rfl, pollLoop_all_spiSeg inp prev 16 0⟩

theorem phases_adcSection (inp : HwInput) :
    phases (adcSection inp).2 = [Phase.adc, Phase.adc, Phase.adc, Phase.adc] := rfl

theorem phases_dacSection (s : Bool) (ph tw a1 ic : Nat) :
    phases (dacSection s ph tw a1 ic).2 = [Phase.dac] := by
  cases s <;> rfl

theorem phases_pwmSection (a1 a2 ic : Nat) (d : Bool) :
    phases (pwmSection a1 a2 ic d).2 = [Phase.pwm, Phase.pwm, Phase.pwm, Phase.pwm] := by
  cases d <;> rfl

theorem phases_spi_replicate {l : List Event} (h : l.all spiSeg = true) :
    phases l = List.replicate (phases l).length Phase.spi := by
  apply List.eq_replicate_length.mpr
  intro p hp
  rcases List.mem_filterMap.mp hp with ⟨e, he, hpe⟩
  have hs := List.all_eq_true.mp h e he
  rw [spiSeg, spiOrPin] at hs
  cases hre : phaseOf e.reg with
  | none => rw [hre] at hpe; cases hpe
  | some q =>
    rw [hre] at hpe hs
    cases q <;> simp_all

theorem phases_spi0_cons (inp : HwInput) (prev a1 : Nat) :
    ∃ t, phases (spi0Section inp prev a1).2 = Phase.spi :: t := by
  simp only [spi0Section]
  split_ifs <;> exact ⟨_, rfl⟩

theorem timer7_trace_eq (g : Globals) (inp : HwInput) :
    (timer7interrupt g inp).2 =
      [Event.write .PFS_P107PFS_BY 0x05]
      ++ (adcSection inp).2
      ++ [Event.write .PFS_P107PFS_BY 0x04]
      ++ [Event.write .PFS_P106PFS_BY 0x05]
      ++ (spi0Section inp g.spi0_received_val (inp.addr00 % M16)).2
      ++ (spi1Section inp g.spi1_received_val g.localCount).2
      ++ [Event.write .PFS_P106PFS_BY 0x04]
      ++ [Event.write .PFS_P107PFS_BY 0x04]
      ++ (dacSection g.sineFlag g.phaccu0 g.tword_m0 (inp.addr00 % M16) g.icount0).2
      ++ (pwmSection (inp.addr00 % M16) (inp.addr01 % M16)
            (dacSection g.sineFlag g.phaccu0 g.tword_m0 (inp.addr00 % M16) g.icount0).1.2
            g.directionFlag).2
      ++ [Event.write .PFS_P107PFS_BY 0x05]
      ++ [Event.write .PFS_P107PFS_BY 0x04] := rfl

theorem timer7_regWrites_eq (g : Globals) (inp : HwInput) (r : Reg)
    (hr : spiOrPin r = false) (hA : regWrites r (adcSection inp).2 = []) :
    regWrites r (timer7interrupt g inp).2 =
      regWrites r (dacSection g.sineFlag g.phaccu0 g.tword_m0 (inp.addr00 % M16) g.icount0).2
      ++ regWrites r (pwmSection (inp.addr00 % M16) (inp.addr01 % M16)
            (dacSection g.sineFlag g.phaccu0 g.tword_m0 (inp.addr00 % M16) g.icount0).1.2
            g.directionFlag).2 := by
  rw [timer7_trace_eq]
  simp only [regWrites_append]
  rw [hA,
    regWrites_nil_of_spiSeg (spi0Section_all_spiSeg inp g.spi0_received_val (inp.addr00 % M16)) hr,
    regWrites_nil_of_spiSeg (spi1Section_all_spiSeg inp g.spi1_received_val g.localCount) hr]
  simp only [show ∀ v, regWrites r [Event.write Reg.PFS_P107PFS_BY v] = [] from
      fun v => regWrites_nil_of_spiSeg (by rfl) hr,
    show ∀ v, regWrites r [Event.write Reg.PFS_P106PFS_BY v] = [] from
      fun v => regWrites_nil_of_spiSeg (by rfl) hr,
    List.nil_append, List.append_nil]

theorem regWrites_pwmSection_gtccrd (a1 a2 ic : Nat) (d : Bool) :
    regWrites Reg.GPT321_GTCCRD (pwmSection a1 a2 ic d).2 =
      [if a1 >>> 4 = 0 then 1 else if a1 >>> 4 ≥ 0x3FF then 0x3FE else a1 >>> 4] := by
  cases d <;> rfl

theorem regWrites_pwmSection_dac (a1 a2 ic : Nat) (d : Bool) :
    regWrites Reg.DAC12_DADR0 (pwmSection a1 a2 ic d).2 = [] := by
  cases d <;> rfl

theorem regWrites_dacSection_gtccrd (s : Bool) (ph tw a1 ic : Nat) :
    regWrites Reg.GPT321_GTCCRD (dacSection s ph tw a1 ic).2 = [] := by
  cases s <;> rfl

theorem pollLoop_received (inp : HwInput) (prev : Nat) :
    ∀ fuel i, (pollLoop inp prev i fuel).1.1 =
      if ((List.range fuel).any fun k =>
            ((inp.spi1_spsr_poll (i + k) % M8) &&& (0x01 <<< SPSR_SPRF))
              == (0x01 <<< SPSR_SPRF)) = true
      then inp.spi1_spdr % M32 else prev := by
  intro fuel
  induction fuel with
  | zero => intro i; simp [pollLoop]
  | succ n ih =>
    intro i
    by_cases hflag : ((inp.spi1_spsr_poll i % M8) &&& (0x01 <<< SPSR_SPRF))
        = (0x01 <<< SPSR_SPRF)
    · have hc : ((List.range (n + 1)).any fun k =>
          ((inp.spi1_spsr_poll (i + k) % M8) &&& (0x01 <<< SPSR_SPRF))
            == (0x01 <<< SPSR_SPRF)) = true := by
        simp only [List.any_eq_true]
        exact ⟨0, List.mem_range.mpr (Nat.succ_pos n), by simpa using hflag⟩
      rw [if_pos hc]
      simp only [pollLoop]
      rw [if_pos hflag]
    · have hfe : (fun k => ((inp.spi1_spsr_poll ((i + 1) + k) % M8)
              &&& (0x01 <<< SPSR_SPRF)) == (0x01 <<< SPSR_SPRF))
          = (fun k => ((inp.spi1_spsr_poll (i + (k + 1)) % M8)
              &&& (0x01 <<< SPSR_SPRF)) == (0x01 <<< SPSR_SPRF)) := by
        funext k
        have hik : (i + 1) + k = i + (k + 1) := by omega
        rw [hik]
      have hiff : (((List.range (n + 1)).any fun k =>
            ((inp.spi1_spsr_poll (i + k) % M8) &&& (0x01 <<< SPSR_SPRF))
              == (0x01 <<< SPSR_SPRF)) = true)
          ↔ (((List.range n).any fun k =>
            ((inp.spi1_spsr_poll ((i + 1) + k) % M8) &&& (0x01 <<< SPSR_SPRF))
              == (0x01 <<< SPSR_SPRF)) = true) := by
        rw [List.range_succ_eq_map, List.any_cons, List.any_map, hfe]
        simp only [Function.comp_def, Nat.add_zero, Bool.or_eq_true, beq_iff_eq, hflag,
          false_or, Nat.succ_eq_add_one]
      simp only [pollLoop]
      rw [if_neg hflag]
      have hgoal := ih (i + 1)
      simp only [hiff]
      exact hgoal

/-- Claim C4: the four placeholder interrupt handlers adcCompleteInterrupt,
spiErrorInterrupt, spiReceiveInterrupt and spiTransmitInterrupt leave every
program global unchanged, and every register access any of them performs is a
write to the P107 pin-function register. -/
theorem other_handlers_leave_globals (g : Globals) :
    (adcCompleteInterrupt g).1 = g ∧ (spiErrorInterrupt g).1 = g
    ∧ (spiReceiveInterrupt g).1 = g ∧ (spiTransmitInterrupt g).1 = g
    ∧ ((adcCompleteInterrupt g).2 ++ (spiErrorInterrupt g).2
        ++ (spiReceiveInterrupt g).2 ++ (spiTransmitInterrupt g).2).all
        (fun e => e.reg == Reg.PFS_P107PFS_BY) = true :=
  ⟨rfl, rfl, rfl, rfl, rfl⟩

/-- Claim C5, counterexample: the write sequence of setup_timers does not
initialise the control, counter, compare, period and I/O registers of exactly
two GPT channels. -/
theorem setup_timers_channels_ne_two : ¬ configuredGptChannels.length = 2 := by
  decide

/-- Claim C5, amended: setup_timers initialises the control, counter,
compare, period and I/O registers of exactly three of the eight GPT
channels, namely channels 1, 4 and 7. -/
theorem setup_timers_three_channels :
    configuredGptChannels = [1, 4, 7] ∧ configuredGptChannels.length = 3 := by
  decide

/-- Claim C7: setup_adc leaves ADC140_ADCER equal to 0x06 (14-bit mode with
the automatic-clear bit 5 clear), selects channels AN00 and AN01 in
ADC140_ADANSA0, sets ADC140_ADADC to 0x83 (4-times average mode), and sets
the matching bits of ADC140_ADADS0. -/
theorem setup_adc_known_state (r : AdcRegs) :
    (setup_adc r).adcer = 0x06
    ∧ Nat.testBit (setup_adc r).adcer 5 = false
    ∧ Nat.testBit (setup_adc r).adansa0 0 = true
    ∧ Nat.testBit (setup_adc r).adansa0 1 = true
    ∧ (setup_adc r).adadc = 0x83
    ∧ Nat.testBit (setup_adc r).adads0 0 = true
    ∧ Nat.testBit (setup_adc r).adads0 1 = true := by
  have her : (setup_adc r).adcer = 0x06 := rfl
  have hsa : (setup_adc r).adansa0 =
      (((r.adansa0 % M16) ||| (0x01 <<< 1)) % M16) ||| (0x01 <<< 0) := rfl
  have hds : (setup_adc r).adads0 =
      (((r.adads0 % M16) ||| (0x01 <<< 1)) % M16) ||| (0x01 <<< 0) := rfl
  have hmod : ∀ y : Nat, (y % M16).testBit 1 = y.testBit 1 := by
    intro y
    rw [M16, Nat.testBit_mod_two_pow]
    simp
  refine ⟨her, by rw [her]; decide, ?_, ?_, rfl, ?_, ?_⟩ <;>
    simp [hsa, hds, Nat.testBit_lor, hmod,
      (show Nat.testBit 1 0 = true by decide), (show Nat.testBit 2 1 = true by decide)]

/-- Claim C10: whenever loop_counter is below LOOP_COUNT_VAL = 24000 before
an invocation of timer7interrupt, it is below 24000 afterwards as well, and
the invocation resets it to 0 and raises loopFlag exactly when the
incremented counter reaches 24000; otherwise it increments the counter and
leaves loopFlag unchanged. -/
theorem loop_counter_invariant (g : Globals) (inp : HwInput)
    (h : g.loop_counter < LOOP_COUNT_VAL) :
    (timer7interrupt g inp).1.loop_counter < LOOP_COUNT_VAL
    ∧ (g.loop_counter + 1 = LOOP_COUNT_VAL →
        (timer7interrupt g inp).1.loop_counter = 0
        ∧ (timer7interrupt g inp).1.loopFlag = true)
    ∧ (g.loop_counter + 1 ≠ LOOP_COUNT_VAL →
        (timer7interrupt g inp).1.loop_counter = g.loop_counter + 1
        ∧ (timer7interrupt g inp).1.loopFlag = g.loopFlag) := by
  have hl : (timer7interrupt g inp).1.loop_counter =
      if (g.loop_counter + 1) % M16 ≥ LOOP_COUNT_VAL then 0
      else (g.loop_counter + 1) % M16 := rfl
  have hf : (timer7interrupt g inp).1.loopFlag =
      if (g.loop_counter + 1) % M16 ≥ LOOP_COUNT_VAL then true else g.loopFlag := rfl
  have hm : (g.loop_counter + 1) % M16 = g.loop_counter + 1 := by
    apply Nat.mod_eq_of_lt
    unfold LOOP_COUNT_VAL at h
    unfold M16
    omega
  rw [hl, hf, hm]
  unfold LOOP_COUNT_VAL at h ⊢
  split_ifs with hc
  · exact ⟨by omega, fun _ => ⟨rfl, rfl⟩, fun hne => absurd (by omega) hne⟩
  · exact ⟨by omega, fun he => absurd he (by omega), fun _ => ⟨rfl, rfl⟩⟩

/-- Claim C10, witness: the invariant applied at a concrete state with
loop_counter = 23999, where the incremented counter reaches 24000. -/
theorem loop_counter_invariant_apply :
    (timer7interrupt gSample inpSample).1.loop_counter < LOOP_COUNT_VAL
    ∧ (gSample.loop_counter + 1 = LOOP_COUNT_VAL →
        (timer7interrupt gSample inpSample).1.loop_counter = 0
        ∧ (timer7interrupt gSample inpSample).1.loopFlag = true)
    ∧ (gSample.loop_counter + 1 ≠ LOOP_COUNT_VAL →
        (timer7interrupt gSample inpSample).1.loop_counter = gSample.loop_counter + 1
        ∧ (timer7interrupt gSample inpSample).1.loopFlag = gSample.loopFlag) :=
  loop_counter_invariant gSample inpSample (by decide)

/-- Final SPCR value computed and returned by setup_spi0, as a function of
the MSmode and IRQmode arguments only. -/
theorem setup_spi0_spcr_eq (m br nb irq : Nat) (r : SpiRegs) :
    (setup_spi0 m br nb irq r).2 =
      if m ≠ 0 then (if irq ≠ 0 then 0xF8 else 0x48)
      else (if irq ≠ 0 then 0xF0 else 0x40) := by
  simp only [setup_spi0]
  split_ifs <;> simp [M8, SPCR_SPTIE, SPCR_SPRIE, SPCR_SPEIE]

/-- Final SPCR value computed and returned by setup_spi1, as a function of
the MSmode and IRQmode arguments only. -/
theorem setup_spi1_spcr_eq (m br nb irq : Nat) (r : SpiRegs) :
    (setup_spi1 m br nb irq r).2 =
      if m ≠ 0 then (if irq ≠ 0 then 0xF8 else 0x48)
      else (if irq ≠ 0 then 0xF0 else 0x40) := by
  simp only [setup_spi1]
  split_ifs <;> simp [M8, SPCR_SPTIE, SPCR_SPRIE, SPCR_SPEIE]

/-- Claim C2: setup() calls setup_spi1 with MSmode = SPI_MASTER (1) and
setup_spi0 with MSmode = SPI_SLAVE (0); for either function and any
arguments, the SPCR value the function leaves in the control register and
returns has the SPE enable bit (bit 6) set, and has the MSTR bit (bit 3) set
if and only if the MSmode argument is true (nonzero). -/
theorem spi_master_slave_config (m br nb irq : Nat) (r r1 r0 : SpiRegs) :
    setup_spi_calls r1 r0 =
      (setup_spi1 SPI_MASTER SPI_BR_8M0Hz SPI_BITS_32 SPI_IRQEN r1,
       setup_spi0 SPI_SLAVE SPI_BR_8M0Hz SPI_BITS_32 SPI_POLL r0)
    ∧ SPI_MASTER = 1 ∧ SPI_SLAVE = 0
    ∧ ((setup_spi0 m br nb irq r).2 = (setup_spi0 m br nb irq r).1.spcr
        ∧ Nat.testBit (setup_spi0 m br nb irq r).2 6 = true
        ∧ (Nat.testBit (setup_spi0 m br nb irq r).2 3 = true ↔ m ≠ 0))
    ∧ ((setup_spi1 m br nb irq r).2 = (setup_spi1 m br nb irq r).1.spcr
        ∧ Nat.testBit (setup_spi1 m br nb irq r).2 6 = true
        ∧ (Nat.testBit (setup_spi1 m br nb irq r).2 3 = true ↔ m ≠ 0)) := by
  refine ⟨rfl, rfl, rfl, ⟨?_, ?_, ?_⟩, ⟨?_, ?_, ?_⟩⟩
  · rfl
  · rw [setup_spi0_spcr_eq]
    by_cases hm : m ≠ 0 <;> by_cases hi : irq ≠ 0 <;> simp [hm, hi] <;> decide
  · rw [setup_spi0_spcr_eq]
    by_cases hm : m ≠ 0 <;> by_cases hi : irq ≠ 0 <;> simp [hm, hi] <;> decide
  · rfl
  · rw [setup_spi1_spcr_eq]
    by_cases hm : m ≠ 0 <;> by_cases hi : irq ≠ 0 <;> simp [hm, hi] <;> decide
  · rw [setup_spi1_spcr_eq]
    by_cases hm : m ≠ 0 <;> by_cases hi : irq ≠ 0 <;> simp [hm, hi] <;> decide

/-- Claim C3: in timer7interrupt, spi0_received_val is loaded from SPI0_SPDR
exactly when bit 7 (SPRF) of the polled SPI0_SPSR value is 1, and
spi1_received_val is loaded from SPI1_SPDR exactly when bit 7 of SPI1_SPSR
reads 1 within the 16 poll iterations; otherwise each keeps its previous
value. -/
theorem spi_rx_flag_guarded (g : Globals) (inp : HwInput) :
    ((timer7interrupt g inp).1.spi0_received_val =
      if ((inp.spi0_spsr_rx % M8) &&& 0x80) = 0x80 then inp.spi0_spdr % M32
      else g.spi0_received_val)
    ∧ ((timer7interrupt g inp).1.spi1_received_val =
      if spi1RxReady inp = true then inp.spi1_spdr % M32
      else g.spi1_received_val)
    ∧ (spi1RxReady inp = true ↔ ∃ k, k < 16 ∧
        ((inp.spi1_spsr_poll k % M8) &&& (0x01 <<< SPSR_SPRF)) = (0x01 <<< SPSR_SPRF)) := by
  refine ⟨rfl, ?_, ?_⟩
  · have h0 : (timer7interrupt g inp).1.spi1_received_val =
        (pollLoop inp g.spi1_received_val 0 16).1.1 := rfl
    rw [h0, pollLoop_received inp g.spi1_received_val 16 0]
    simp only [spi1RxReady, Nat.zero_add]
  · simp only [spi1RxReady, List.any_eq_true, List.mem_range, beq_iff_eq]

/-- Claim C9: for every 16-bit adc_val_A1 reading, the duty value written to
GPT321_GTCCRD lies in the closed interval from 0x001 to 0x3FE: the shifted
reading is replaced by 1 when zero and by 0x3FE when at least 0x3FF. -/
theorem gtccrd_duty_clamped (g : Globals) (inp : HwInput) :
    (regWrites Reg.GPT321_GTCCRD (timer7interrupt g inp).2).all
      (fun v => decide (1 ≤ v ∧ v ≤ 0x3FE)) = true := by
  rw [timer7_regWrites_eq g inp Reg.GPT321_GTCCRD (by rfl) (by rfl),
    regWrites_dacSection_gtccrd, regWrites_pwmSection_gtccrd, List.nil_append]
  simp only [List.all_cons, List.all_nil, Bool.and_true, decide_eq_true_eq]
  split_ifs <;> omega

/-- Claim C6: every value timer7interrupt writes to the 12-bit DAC data
register fits in 12 bits, assuming the ADC reading is a 14-bit value; in sine
mode the written value equals the 32-bit phase accumulator advanced by the
tuning word and shifted right by 20 bits. -/
theorem dac_write_fits_12bit (g : Globals) (inp : HwInput)
    (h : inp.addr00 % M16 < 16384) :
    (regWrites Reg.DAC12_DADR0 (timer7interrupt g inp).2).all
      (fun v => decide (v < 4096)) = true
    ∧ (g.sineFlag = true →
        regWrites Reg.DAC12_DADR0 (timer7interrupt g inp).2 =
          [((g.phaccu0 + g.tword_m0) % M32) >>> 20]) := by
  have hshift : ((g.phaccu0 + g.tword_m0) % M32) >>> 20 < 4096 := by
    rw [Nat.shiftRight_eq_div_pow]
    have hlt : (g.phaccu0 + g.tword_m0) % M32 < 4096 * 2 ^ 20 := by
      have := Nat.mod_lt (g.phaccu0 + g.tword_m0) (show 0 < M32 by norm_num [M32])
      have hm32 : M32 = 4096 * 2 ^ 20 := by norm_num [M32]
      omega
    exact Nat.div_lt_iff_lt_mul (by norm_num) |>.mpr hlt
  have hd := timer7_regWrites_eq g inp Reg.DAC12_DADR0 (by rfl) (by rfl)
  rw [regWrites_pwmSection_dac, List.append_nil] at hd
  rw [hd]
  cases hs : g.sineFlag with
  | false =>
    have hv : regWrites Reg.DAC12_DADR0
        (dacSection false g.phaccu0 g.tword_m0 (inp.addr00 % M16) g.icount0).2 =
        [(inp.addr00 % M16) >>> 2] := rfl
    rw [hv]
    refine ⟨?_, by intro hc; cases hc⟩
    simp only [List.all_cons, List.all_nil, Bool.and_true, decide_eq_true_eq]
    rw [Nat.shiftRight_eq_div_pow]
    omega
  | true =>
    have hmod : ((((g.phaccu0 + g.tword_m0) % M32) >>> 20)) % M16 =
        ((g.phaccu0 + g.tword_m0) % M32) >>> 20 := by
      apply Nat.mod_eq_of_lt
      have h16 : (4096 : Nat) < M16 := by norm_num [M16]
      omega
    have hv : regWrites Reg.DAC12_DADR0
        (dacSection true g.phaccu0 g.tword_m0 (inp.addr00 % M16) g.icount0).2 =
        [(((g.phaccu0 + g.tword_m0) % M32) >>> 20) % M16] := rfl
    rw [hv, hmod]
    refine ⟨?_, fun _ => rfl⟩
    simp only [List.all_cons, List.all_nil, Bool.and_true, decide_eq_true_eq]
    exact hshift

/-- Claim C6, witness: the bound and the sine-mode formula at a concrete
state with sineFlag set and a 14-bit ADC reading. -/
theorem dac_write_fits_12bit_apply :
    (regWrites Reg.DAC12_DADR0 (timer7interrupt gSample inpSample).2).all
      (fun v => decide (v < 4096)) = true
    ∧ (gSample.sineFlag = true →
        regWrites Reg.DAC12_DADR0 (timer7interrupt gSample inpSample).2 =
          [((gSample.phaccu0 + gSample.tword_m0) % M32) >>> 20]) :=
  dac_write_fits_12bit gSample inpSample (by decide)

/-- Claim C1: every invocation of timer7interrupt performs its four phases in
the fixed order ADC (read ADDR00, read ADDR01, start next conversion), then
SPI exchange, then DAC write, then the four PWM compare-register writes; no
phase is skipped and none occurs out of order. -/
theorem timer7_phase_order (g : Globals) (inp : HwInput) :
    ∃ b, 0 < b ∧
      phases (timer7interrupt g inp).2 =
        List.replicate 4 Phase.adc ++ List.replicate b Phase.spi
          ++ [Phase.dac] ++ List.replicate 4 Phase.pwm := by
  have hall : ((spi0Section inp g.spi0_received_val (inp.addr00 % M16)).2
      ++ (spi1Section inp g.spi1_received_val g.localCount).2).all spiSeg = true := by
    rw [List.all_append]
    simp [spi0Section_all_spiSeg, spi1Section_all_spiSeg]
  have hrep := phases_spi_replicate hall
  rw [phases_append] at hrep
  obtain ⟨t, ht⟩ := phases_spi0_cons inp g.spi0_received_val (inp.addr00 % M16)
  refine ⟨(phases (spi0Section inp g.spi0_received_val (inp.addr00 % M16)).2
      ++ phases (spi1Section inp g.spi1_received_val g.localCount).2).length, ?_, ?_⟩
  · rw [List.length_append, ht]
    simp
  · rw [timer7_trace_eq]
    simp only [phases_append, phases_adcSection, phases_dacSection, phases_pwmSection,
      show ∀ v, phases [Event.write Reg.PFS_P107PFS_BY v] = [] from fun v => rfl,
      show ∀ v, phases [Event.write Reg.PFS_P106PFS_BY v] = [] from fun v => rfl,
      List.nil_append, List.append_nil]
    rw [← hrep]
    simp [List.append_assoc, List.replicate_succ]
